import Mathlib

/-!
# Verification of the authentication/token lifecycle of Azure-DevOps-AI-Agent

This file gives a shallow embedding of the authentication core of the
repository — JWT issuance and verification in
`src/backend/app/services/auth_service.py`, the MSAL authorization-code
exchange in `src/frontend/services/auth_service.py`, and the startup
configuration check in `src/backend/app/core/config.py` — and proves the
testable properties stated in the repository's specification about them.

Modelling conventions:
* JSON claim values are `JsonValue` (strings, integers, null); a JWT payload
  is an association list of claim-name/value pairs with Python-`dict.get`
  lookup semantics (`lookupClaim`, `dictGet`, `dictGetD`).
* A signed JWT is modelled by its decoded payload together with the key and
  algorithm it was signed with (`Jwt.signed`); `Jwt.malformed` stands for any
  string PyJWT cannot parse.  `jwtDecode` mirrors `jwt.decode(token, key,
  algorithms=[alg])` of PyJWT 2.x: header-algorithm check, signature check,
  then validation of the registered claims `iat`, `nbf`, `exp` and `aud`
  (no `audience` argument is passed by the service, so a non-empty `aud`
  claim is rejected; no `issuer` argument is passed, so `iss` is not
  checked).  PyJWT's `int(...)` coercion would additionally accept decimal
  strings in timestamp claims; such payloads are outside this model.
* Timestamps are `Int` seconds (Unix time).  `datetime.now(UTC)` readings are
  explicit parameters; `create_access_token` calls `datetime.now` twice (once
  for `exp`, once for `iat`), so it takes two readings `tExp` and `tIat`.
* Python exceptions that a function catches and converts to `None` are
  modelled by `Option`; exceptions it raises are modelled by `Except` with
  the exception's message string.
* Pydantic model validation of `User` (fields `id`, `email`, `name` of type
  `str`, `preferred_username` of type `Optional[str]`, lax mode, which does
  not coerce numbers to strings) is `pydanticUser`.
-/

namespace AzureDevOpsAgent

/-- A JSON claim value as PyJWT hands it to the service: a string, an
integer (timestamps), or null (Python `None`). -/
inductive JsonValue where
  | str : String → JsonValue
  | num : Int → JsonValue
  | null : JsonValue
deriving DecidableEq, Repr

/-- A JWT payload / Python dict: an association list of claim names to
values.  Keys are unique in any dict produced by the code; lookup takes the
first match, which agrees with dict semantics on such lists. -/
abbrev Payload := List (String × JsonValue)

/-- First-match key lookup: `none` when the key is absent. -/
def lookupClaim : Payload → String → Option JsonValue
  | [], _ => none
  | (k', v) :: rest, k => if k' = k then some v else lookupClaim rest k

/-- Python `payload.get(k)`: `None` (here `JsonValue.null`) when absent. -/
def dictGet (p : Payload) (k : String) : JsonValue :=
  (lookupClaim p k).getD JsonValue.null

/-- Python `payload.get(k, d)`: the default applies only when the key is
absent, not when it is present with value null. -/
def dictGetD (p : Payload) (k : String) (d : JsonValue) : JsonValue :=
  (lookupClaim p k).getD d

/-- The immutable configuration the `AuthenticationService` copies from
`settings` at construction: JWT secret key, algorithm, and token
time-to-live in minutes. -/
structure AuthConfig where
  jwt_secret_key : String
  jwt_algorithm : String
  jwt_expire_minutes : Int
deriving DecidableEq, Repr

/-- A token string as seen by `jwt.decode`: either unparsable, or a signed
JWT carrying a payload, the signing key and the header algorithm. -/
inductive Jwt where
  | malformed : Jwt
  | signed (payload : Payload) (key : String) (alg : String) : Jwt
deriving DecidableEq, Repr

/-- The exceptions `jwt.decode` can raise, collapsed to one constructor per
failing check (`verify_token` catches them all, so only the success/failure
distinction is observable downstream). -/
inductive DecodeError where
  | malformedToken : DecodeError
  | invalidAlgorithm : DecodeError
  | invalidSignature : DecodeError
  | invalidIssuedAt : DecodeError
  | immatureSignature : DecodeError
  | expiredSignature : DecodeError
  | invalidAudience : DecodeError
deriving DecidableEq, Repr

/-- PyJWT `_validate_iat` (pre-2.10): the `iat` claim, when present, must be
an integer; its value is not compared to the clock. -/
def iatOk (p : Payload) : Bool :=
  match lookupClaim p "iat" with
  | none => true
  | some (.num _) => true
  | some _ => false

/-- PyJWT `_validate_nbf`: the `nbf` claim, when present, must be an integer
not greater than the current time. -/
def nbfOk (p : Payload) (now : Int) : Bool :=
  match lookupClaim p "nbf" with
  | none => true
  | some (.num n) => decide (n ≤ now)
  | some _ => false

/-- PyJWT `_validate_exp` with zero leeway: the `exp` claim, when present,
must be an integer strictly greater than the current time (`exp <= now`
raises `ExpiredSignatureError`, so the token is already invalid at the exact
expiry instant). -/
def expOk (p : Payload) (now : Int) : Bool :=
  match lookupClaim p "exp" with
  | none => true
  | some (.num e) => decide (now < e)
  | some _ => false

/-- PyJWT `_validate_aud` when the caller passes no `audience` (as
`verify_token` does): a present, truthy `aud` claim raises
`InvalidAudienceError`; a falsy one (null, empty string, zero) is ignored. -/
def audOk (p : Payload) : Bool :=
  match lookupClaim p "aud" with
  | none => true
  | some .null => true
  | some (.str s) => s = ""
  | some (.num n) => n = 0

/-- `jwt.decode(token, key, algorithms=algs)` at clock reading `now`:
header-algorithm membership check, signature check (the signing key must
equal the decoding key), then registered-claim validation. -/
def jwtDecode (t : Jwt) (key : String) (algs : List String) (now : Int) :
    Except DecodeError Payload :=
  match t with
  | .malformed => .error .malformedToken
  | .signed p k a =>
    if a ∈ algs then
      if k = key then
        if ¬ iatOk p then .error .invalidIssuedAt
        else if ¬ nbfOk p now then .error .immatureSignature
        else if ¬ expOk p now then .error .expiredSignature
        else if ¬ audOk p then .error .invalidAudience
        else .ok p
      else .error .invalidSignature
    else .error .invalidAlgorithm

/-- The `User` Pydantic model of `app/models/auth.py`. -/
structure User where
  id : String
  email : String
  name : String
  preferred_username : Option String
deriving DecidableEq, Repr

/-- Pydantic lax validation of a `str` field: accepts exactly strings
(numbers and `None` raise `ValidationError`). -/
def validateStr : JsonValue → Option String
  | .str s => some s
  | _ => none

/-- Pydantic lax validation of an `Optional[str]` field. -/
def validateOptStr : JsonValue → Option (Option String)
  | .str s => some (some s)
  | .null => some none
  | .num _ => none

/-- Construction `User(id=..., email=..., name=..., preferred_username=...)`:
succeeds only when every field validates. -/
def pydanticUser (idv emailv namev puv : JsonValue) : Option User :=
  match validateStr idv, validateStr emailv, validateStr namev,
      validateOptStr puv with
  | some i, some e, some n, some pu =>
    some { id := i, email := e, name := n, preferred_username := pu }
  | _, _, _, _ => none

/-- The `Token` response model of `app/models/auth.py`. -/
structure Token where
  access_token : Jwt
  token_type : String
  expires_in : Int
deriving DecidableEq, Repr

/-- `AuthenticationService.create_access_token(user_data)`.
`tExp` is the `datetime.now(UTC)` reading used for the expiry computation
(line 90 of `auth_service.py`), `tIat` the later reading stored in the `iat`
claim (line 97); the real clock may advance between the two calls, so
`tExp ≤ tIat` but not necessarily `tExp = tIat`. -/
def create_access_token (cfg : AuthConfig) (tExp tIat : Int)
    (user_data : Payload) : Token :=
  let expire := tExp + cfg.jwt_expire_minutes * 60
  let to_encode : Payload :=
    [("sub", dictGet user_data "sub"),
     ("email", dictGet user_data "email"),
     ("name", dictGet user_data "name"),
     ("exp", .num expire),
     ("iat", .num tIat),
     ("iss", .str "azure-devops-ai-backend")]
  { access_token := Jwt.signed to_encode cfg.jwt_secret_key cfg.jwt_algorithm,
    token_type := "bearer",
    expires_in := cfg.jwt_expire_minutes * 60 }

/-- `AuthenticationService.verify_token(token)` at clock reading `now`:
decode with the configured key and the one-element algorithm list; `None` on
any decode exception; `None` when the `sub` claim is absent or null;
otherwise construct a `User`, with any Pydantic `ValidationError` swallowed
by the catch-all `except` into `None`. -/
def verify_token (cfg : AuthConfig) (now : Int) (token : Jwt) : Option User :=
  match jwtDecode token cfg.jwt_secret_key [cfg.jwt_algorithm] now with
  | .error _ => none
  | .ok payload =>
    let user_id := dictGet payload "sub"
    if user_id = JsonValue.null then none
    else
      pydanticUser user_id
        (dictGetD payload "email" (.str ""))
        (dictGetD payload "name" (.str ""))
        (dictGet payload "preferred_username")

/-- Payload of a token as `jwt.decode` would return it (empty for a
malformed token, which never reaches the claim-extraction code). -/
def Jwt.payloadOf : Jwt → Payload
  | .malformed => []
  | .signed p _ _ => p

/-! ## Helper lemmas about decoding and claim extraction -/

theorem jwtDecode_ok_payload {p : Payload} {k a key : String} {algs : List String}
    {now : Int} {q : Payload}
    (hd : jwtDecode (Jwt.signed p k a) key algs now = .ok q) : q = p := by
  simp only [jwtDecode] at hd
  split at hd
  · split at hd
    · repeat' split at hd
      all_goals simp_all
    · simp_all
  · simp_all

/-- Round-trip core: verifying a freshly issued token before its expiry
instant reconstructs the subject, email and name claims, with no
preferred-username claim. -/
theorem verify_issue_eq (cfg : AuthConfig) (tExp tIat now : Int) (ud : Payload)
    (s e n : String)
    (hs : lookupClaim ud "sub" = some (.str s))
    (he : lookupClaim ud "email" = some (.str e))
    (hn : lookupClaim ud "name" = some (.str n))
    (hnow : now < tExp + cfg.jwt_expire_minutes * 60) :
    verify_token cfg now (create_access_token cfg tExp tIat ud).access_token
      = some { id := s, email := e, name := n, preferred_username := none } := by
  simp [verify_token, create_access_token, jwtDecode, iatOk, nbfOk, expOk, audOk,
    lookupClaim, dictGet, dictGetD, pydanticUser, validateStr, validateOptStr,
    hs, he, hn, hnow]

/-- An issued token whose expiry instant has been reached (or passed) fails
verification, whatever the claim set was. -/
theorem verify_issue_expired (cfg : AuthConfig) (tExp tIat now : Int)
    (ud : Payload) (hnow : tExp + cfg.jwt_expire_minutes * 60 ≤ now) :
    verify_token cfg now (create_access_token cfg tExp tIat ud).access_token
      = none := by
  simp [verify_token, create_access_token, jwtDecode, iatOk, nbfOk, expOk, audOk,
    lookupClaim, not_lt.mpr hnow]

/-- A null (or absent) subject claim makes `verify_token` return `None`. -/
theorem verify_null_sub (cfg : AuthConfig) (now : Int) (t : Jwt)
    (hsub : ∀ p k a, t = Jwt.signed p k a → dictGet p "sub" = JsonValue.null) :
    verify_token cfg now t = none := by
  cases t with
  | malformed => simp [verify_token, jwtDecode]
  | signed p k a =>
    have h := hsub p k a rfl
    simp only [verify_token]
    cases hd : jwtDecode (Jwt.signed p k a) cfg.jwt_secret_key
        [cfg.jwt_algorithm] now with
    | error _ => rfl
    | ok q =>
      have hq := jwtDecode_ok_payload hd
      subst hq
      simp [h]

/-! ## C1, C3, C5 -/

/-- C1: round-trip — for every identity claim set whose subject is a
non-null string and whose email and name are strings, verifying the token
produced by issuance with the same secret key and algorithm, at any clock
reading strictly before the expiry instant, succeeds and returns a user
whose id, email and name equal the issued subject, email and name. -/
theorem roundTrip_issue_then_verify (cfg : AuthConfig) (tExp tIat now : Int)
    (ud : Payload) (s e n : String)
    (hs : lookupClaim ud "sub" = some (.str s))
    (he : lookupClaim ud "email" = some (.str e))
    (hn : lookupClaim ud "name" = some (.str n))
    (hnow : now < tExp + cfg.jwt_expire_minutes * 60) :
    verify_token cfg now (create_access_token cfg tExp tIat ud).access_token
      = some { id := s, email := e, name := n, preferred_username := none } :=
  verify_issue_eq cfg tExp tIat now ud s e n hs he hn hnow

def cfgW : AuthConfig := ⟨"example-secret", "HS256", 60⟩

def udW : Payload :=
  [("sub", .str "u1"), ("email", .str "u1@example.com"),
   ("name", .str "User One")]

/-- C1 witness: the round trip at a concrete identity, configuration and
clock reading. -/
theorem roundTrip_issue_then_verify_witness :
    verify_token cfgW 0 (create_access_token cfgW 0 0 udW).access_token
      = some { id := "u1", email := "u1@example.com", name := "User One",
               preferred_username := none } :=
  roundTrip_issue_then_verify cfgW 0 0 0 udW "u1" "u1@example.com" "User One"
    rfl rfl rfl (by decide)

theorem verify_none_of_bad_key_or_alg (cfg : AuthConfig) (now : Int)
    (p : Payload) (k a : String)
    (h : k ≠ cfg.jwt_secret_key ∨ a ≠ cfg.jwt_algorithm) :
    verify_token cfg now (Jwt.signed p k a) = none := by
  rcases h with hk | ha
  · by_cases hae : a = cfg.jwt_algorithm
    · simp [verify_token, jwtDecode, hae, hk]
    · simp [verify_token, jwtDecode, hae]
  · simp [verify_token, jwtDecode, ha]

/-- C3: a token signed with a key different from the configured secret key,
or with an algorithm different from the configured one, always fails
verification with `None` (the decode exception is caught, never escapes). -/
theorem verify_rejects_wrong_key_or_algorithm (cfg : AuthConfig) (now : Int)
    (p : Payload) (k a : String)
    (h : k ≠ cfg.jwt_secret_key ∨ a ≠ cfg.jwt_algorithm) :
    verify_token cfg now (Jwt.signed p k a) = none :=
  verify_none_of_bad_key_or_alg cfg now p k a h

/-- C3 witness: a token signed under a different key is rejected at a
concrete input. -/
theorem verify_rejects_wrong_key_or_algorithm_witness :
    verify_token cfgW 0
      (Jwt.signed [("sub", .str "u1"), ("exp", .num 100)] "other-secret" "HS256")
      = none :=
  verify_rejects_wrong_key_or_algorithm cfgW 0
    [("sub", .str "u1"), ("exp", .num 100)] "other-secret" "HS256"
    (Or.inl (by decide))

/-- C5: an otherwise well-formed token — correct key, correct algorithm,
valid expiry — whose payload lacks a subject claim or carries a null one
makes `verify_token` return `None` (total function: no exception). -/
theorem verify_missing_subject_returns_none (cfg : AuthConfig) (now : Int)
    (p : Payload) (hsub : dictGet p "sub" = JsonValue.null)
    (hexp : expOk p now = true) :
    verify_token cfg now (Jwt.signed p cfg.jwt_secret_key cfg.jwt_algorithm)
      = none :=
  verify_null_sub cfg now _ (by intro q k' a' hq; injection hq with h1 _ _; subst h1; exact hsub)

/-- C5 witness: a signed, unexpired token with no subject claim is rejected
at a concrete input. -/
theorem verify_missing_subject_returns_none_witness :
    verify_token cfgW 0
      (Jwt.signed [("exp", .num 100)] cfgW.jwt_secret_key cfgW.jwt_algorithm)
      = none :=
  verify_missing_subject_returns_none cfgW 0 [("exp", .num 100)]
    (by decide) (by decide)

/-! ## C4 -/

/-- C4: with `jwt_expire_minutes = 60`, a token minted at instant `t` from a
well-formed claim set verifies at the issuance instant; it fails
verification at every clock reading strictly beyond sixty minutes after
issuance; and at exactly the expiry instant the verdict is the fixed one of
the implementation, namely rejection (PyJWT treats `exp ≤ now` as
expired). -/
theorem ttl60_verify_lifecycle (cfg : AuthConfig) (t : Int) (ud : Payload)
    (s e n : String) (hm : cfg.jwt_expire_minutes = 60)
    (hs : lookupClaim ud "sub" = some (.str s))
    (he : lookupClaim ud "email" = some (.str e))
    (hn : lookupClaim ud "name" = some (.str n)) :
    verify_token cfg t (create_access_token cfg t t ud).access_token
        = some { id := s, email := e, name := n, preferred_username := none }
      ∧ (∀ now : Int, t + 60 * 60 < now →
          verify_token cfg now (create_access_token cfg t t ud).access_token
            = none)
      ∧ verify_token cfg (t + 60 * 60)
          (create_access_token cfg t t ud).access_token = none := by
  refine ⟨?_, ?_, ?_⟩
  · exact verify_issue_eq cfg t t t ud s e n hs he hn (by rw [hm]; omega)
  · intro now hnow
    exact verify_issue_expired cfg t t now ud (by rw [hm]; omega)
  · exact verify_issue_expired cfg t t (t + 60 * 60) ud (by rw [hm])

/-- C4 witness: the three verdicts at a concrete identity and clock. -/
theorem ttl60_verify_lifecycle_witness :
    verify_token cfgW 0 (create_access_token cfgW 0 0 udW).access_token
        = some { id := "u1", email := "u1@example.com", name := "User One",
                 preferred_username := none }
      ∧ verify_token cfgW 3601 (create_access_token cfgW 0 0 udW).access_token
        = none
      ∧ verify_token cfgW 3600 (create_access_token cfgW 0 0 udW).access_token
        = none := by
  have h := ttl60_verify_lifecycle cfgW 0 udW "u1" "u1@example.com" "User One"
    rfl rfl rfl rfl
  refine ⟨h.1, h.2.1 3601 (by decide), ?_⟩
  have h3 := h.2.2
  norm_num at h3
  exact h3

/-! ## C9, C10 -/

theorem pydanticUser_pu_none {a b c : JsonValue} {u : User}
    (h : pydanticUser a b c JsonValue.null = some u) :
    u.preferred_username = none := by
  rcases a with s | v | _ <;> rcases b with e | v2 | _ <;>
    rcases c with n | v3 | _ <;>
    simp [pydanticUser, validateStr, validateOptStr] at h <;>
    simp [← h]

/-- A verified user built from a payload without a preferred-username claim
has no preferred username. -/
theorem verify_some_pu (cfg : AuthConfig) (now : Int) (t : Jwt) (u : User)
    (hpu : dictGet t.payloadOf "preferred_username" = JsonValue.null)
    (h : verify_token cfg now t = some u) : u.preferred_username = none := by
  cases t with
  | malformed => simp [verify_token, jwtDecode] at h
  | signed p k a =>
    simp only [verify_token] at h
    split at h
    · exact Option.noConfusion h
    · rename_i q heq
      have hq := jwtDecode_ok_payload heq
      subst hq
      simp only [Jwt.payloadOf] at hpu
      rw [hpu] at h
      split at h
      · exact Option.noConfusion h
      · exact pydanticUser_pu_none h

/-- C9: the issuance payload never carries a `preferred_username` claim —
whatever the input claim set (including one that carries
`preferred_username`, as the refresh endpoint passes) — so any successful
verification of an issued token yields `preferred_username = none`. -/
theorem issued_token_never_carries_preferred_username (cfg : AuthConfig)
    (tExp tIat : Int) (ud : Payload) :
    lookupClaim (create_access_token cfg tExp tIat ud).access_token.payloadOf
        "preferred_username" = none
      ∧ (∀ (now : Int) (u : User),
          verify_token cfg now (create_access_token cfg tExp tIat ud).access_token
              = some u →
            u.preferred_username = none) := by
  refine ⟨rfl, ?_⟩
  intro now u h
  exact verify_some_pu cfg now
    (create_access_token cfg tExp tIat ud).access_token u rfl h

/-- C9 witness: a refresh-style claim set that does carry
`preferred_username` still yields a token without that claim, and its
verification yields a user with `preferred_username = none`. -/
theorem issued_token_never_carries_preferred_username_witness :
    lookupClaim
        (create_access_token cfgW 0 0
          (("preferred_username", JsonValue.str "mockuser") :: udW)).access_token.payloadOf
        "preferred_username" = none
      ∧ User.preferred_username
          { id := "u1", email := "u1@example.com", name := "User One",
            preferred_username := none } = none := by
  have h := issued_token_never_carries_preferred_username cfgW 0 0
    (("preferred_username", JsonValue.str "mockuser") :: udW)
  exact ⟨h.1, h.2 0 _ (by decide)⟩

/-- C10: a claim set whose `email` or `name` key is present with a null
value (as `validate_azure_token` produces when the external credential
lacks those claims) yields a token that fails verification — even though
its signature, algorithm and expiry are valid and its subject is a non-null
string — because the Pydantic `ValidationError` raised while constructing
the `User` is swallowed into `None`. -/
theorem null_email_or_name_breaks_verification (cfg : AuthConfig)
    (tExp tIat now : Int) (ud : Payload) (s : String)
    (hs : lookupClaim ud "sub" = some (.str s))
    (hnull : lookupClaim ud "email" = some JsonValue.null
      ∨ lookupClaim ud "name" = some JsonValue.null)
    (hnow : now < tExp + cfg.jwt_expire_minutes * 60) :
    verify_token cfg now (create_access_token cfg tExp tIat ud).access_token
      = none := by
  rcases hnull with he | hn
  · rcases hname : lookupClaim ud "name" with _ | v <;>
      simp [verify_token, create_access_token, jwtDecode, iatOk, nbfOk, expOk,
        audOk, lookupClaim, dictGet, dictGetD, pydanticUser, validateStr,
        hs, he, hname, hnow]
  · rcases hemail : lookupClaim ud "email" with _ | v <;>
      simp [verify_token, create_access_token, jwtDecode, iatOk, nbfOk, expOk,
        audOk, lookupClaim, dictGet, dictGetD, pydanticUser, validateStr,
        hs, hn, hemail, hnow]

/-- C10 witness: the mock-validation shape with a null email claim fails
verification at a concrete input. -/
theorem null_email_or_name_breaks_verification_witness :
    verify_token cfgW 0
      (create_access_token cfgW 0 0
        [("sub", .str "u1"), ("email", JsonValue.null),
         ("name", .str "User One")]).access_token = none :=
  null_email_or_name_breaks_verification cfgW 0 0 0
    [("sub", .str "u1"), ("email", JsonValue.null), ("name", .str "User One")]
    "u1" rfl (Or.inl rfl) (by decide)

/-! ## C2 -/

/-- Spec-side condition: the `iat` claim, when present, is an integer. -/
def IatClaimOk (p : Payload) : Prop :=
  match lookupClaim p "iat" with
  | none => True
  | some (.num _) => True
  | some _ => False

/-- Spec-side condition: the `nbf` claim, when present, is an integer not
after the current instant. -/
def NbfClaimOk (p : Payload) (now : Int) : Prop :=
  match lookupClaim p "nbf" with
  | none => True
  | some (.num v) => v ≤ now
  | some _ => False

/-- Spec-side condition: the expiry timestamp, when present, is an integer
strictly in the future. -/
def ExpClaimOk (p : Payload) (now : Int) : Prop :=
  match lookupClaim p "exp" with
  | none => True
  | some (.num v) => now < v
  | some _ => False

/-- Spec-side condition: no (truthy) audience claim. -/
def AudClaimOk (p : Payload) : Prop :=
  match lookupClaim p "aud" with
  | none => True
  | some .null => True
  | some (.str s) => s = ""
  | some (.num v) => v = 0

/-- Spec-side condition: the payload carries a non-null string subject. -/
def SubClaimOk (p : Payload) : Prop :=
  ∃ s, dictGet p "sub" = JsonValue.str s

/-- Spec-side condition: the email claim, defaulted to the empty string
when absent, is a string. -/
def EmailClaimOk (p : Payload) : Prop :=
  ∃ s, dictGetD p "email" (.str "") = JsonValue.str s

/-- Spec-side condition: the name claim, defaulted to the empty string when
absent, is a string. -/
def NameClaimOk (p : Payload) : Prop :=
  ∃ s, dictGetD p "name" (.str "") = JsonValue.str s

/-- Spec-side condition: the preferred-username claim is absent, null, or a
string. -/
def PuClaimOk (p : Payload) : Prop :=
  dictGet p "preferred_username" = JsonValue.null
    ∨ ∃ s, dictGet p "preferred_username" = JsonValue.str s

/-- The amended validity invariant, written from the corrected spec
sentence: a session token is accepted exactly when its signature verifies
under the configured secret key, its algorithm matches the configured
algorithm, its registered timing claims pass (integer `iat`; `nbf`, if any,
not in the future; `exp`, if any, strictly in the future), it carries no
truthy audience claim, and its payload yields a well-typed identity
(non-null string subject; email and name string-or-absent;
preferred-username string, null or absent). -/
def TokenValid (cfg : AuthConfig) (now : Int) : Jwt → Prop
  | .malformed => False
  | .signed p k a =>
      k = cfg.jwt_secret_key ∧ a = cfg.jwt_algorithm ∧ IatClaimOk p
        ∧ NbfClaimOk p now ∧ ExpClaimOk p now ∧ AudClaimOk p ∧ SubClaimOk p
        ∧ EmailClaimOk p ∧ NameClaimOk p ∧ PuClaimOk p

theorem IatClaimOk_iff (p : Payload) : IatClaimOk p ↔ iatOk p = true := by
  unfold IatClaimOk iatOk
  split <;> simp

theorem NbfClaimOk_iff (p : Payload) (now : Int) :
    NbfClaimOk p now ↔ nbfOk p now = true := by
  unfold NbfClaimOk nbfOk
  split <;> simp

theorem ExpClaimOk_iff (p : Payload) (now : Int) :
    ExpClaimOk p now ↔ expOk p now = true := by
  unfold ExpClaimOk expOk
  split <;> simp

theorem AudClaimOk_iff (p : Payload) : AudClaimOk p ↔ audOk p = true := by
  unfold AudClaimOk audOk
  split <;> simp

theorem pydanticUser_isSome_iff (a b c d : JsonValue) :
    (pydanticUser a b c d).isSome = true ↔
      (∃ s, a = JsonValue.str s) ∧ (∃ s, b = JsonValue.str s)
        ∧ (∃ s, c = JsonValue.str s)
        ∧ (d = JsonValue.null ∨ ∃ s, d = JsonValue.str s) := by
  rcases a with s | v | _ <;> rcases b with e | v2 | _ <;>
    rcases c with n | v3 | _ <;> rcases d with u | v4 | _ <;>
    simp [pydanticUser, validateStr, validateOptStr]

/-- C2 (amended): characterization of the verification verdict — a token
verifies (the verdict is a user rather than `None`) exactly when
`TokenValid` holds; in particular the subject/email/name/preferred-username
shape conditions co-determine the verdict, beyond the three conditions of
the original claim. -/
theorem verify_isSome_iff_tokenValid (cfg : AuthConfig) (now : Int)
    (t : Jwt) :
    (verify_token cfg now t).isSome = true ↔ TokenValid cfg now t := by
  cases t with
  | malformed => simp [verify_token, jwtDecode, TokenValid]
  | signed p k a =>
    by_cases ha : a = cfg.jwt_algorithm
    case neg =>
      have h0 : verify_token cfg now (Jwt.signed p k a) = none :=
        verify_none_of_bad_key_or_alg cfg now p k a (Or.inr ha)
      simp [h0, TokenValid, ha]
    case pos =>
      by_cases hk : k = cfg.jwt_secret_key
      case neg =>
        have h0 : verify_token cfg now (Jwt.signed p k a) = none :=
          verify_none_of_bad_key_or_alg cfg now p k a (Or.inl hk)
        simp [h0, TokenValid, hk]
      case pos =>
        subst ha hk
        simp only [verify_token, jwtDecode, List.mem_singleton, if_pos rfl,
          TokenValid, IatClaimOk_iff, NbfClaimOk_iff, ExpClaimOk_iff,
          AudClaimOk_iff, true_and]
        by_cases hiat : iatOk p = true
        case neg => simp [hiat]
        case pos =>
          by_cases hnbf : nbfOk p now = true
          case neg => simp [hiat, hnbf]
          case pos =>
            by_cases hexp : expOk p now = true
            case neg => simp [hiat, hnbf, hexp]
            case pos =>
              by_cases haud : audOk p = true
              case neg => simp [hiat, hnbf, hexp, haud]
              case pos =>
                simp only [hiat, hnbf, hexp, haud, if_neg, Bool.not_true]
                by_cases hnull : dictGet p "sub" = JsonValue.null
                case pos =>
                  simp [hnull, SubClaimOk]
                case neg =>
                  simp [hnull, SubClaimOk, EmailClaimOk, NameClaimOk,
                    PuClaimOk, pydanticUser_isSome_iff]

def cfgC2 : AuthConfig := ⟨"c2-secret", "HS256", 60⟩

def tokC2 : Jwt := Jwt.signed [("exp", JsonValue.num 100)] "c2-secret" "HS256"

/-- C2 counterexample: a token signed with the configured key and
algorithm, whose expiry lies in the future — all three conditions of the
claimed invariant hold, and `jwt.decode` itself accepts it — yet
verification fails because the payload lacks a subject claim, so the three
conditions do not characterize validity. -/
theorem verify_requires_subject_counterexample :
    tokC2 = Jwt.signed [("exp", JsonValue.num 100)] cfgC2.jwt_secret_key
        cfgC2.jwt_algorithm
      ∧ jwtDecode tokC2 cfgC2.jwt_secret_key [cfgC2.jwt_algorithm] 0
        = .ok [("exp", JsonValue.num 100)]
      ∧ expOk [("exp", JsonValue.num 100)] 0 = true
      ∧ verify_token cfgC2 0 tokC2 = none :=
  ⟨rfl, rfl, rfl, rfl⟩

/-! ## C7 -/

/-- C7 (amended): issuance postconditions.  The issued payload consists of
exactly the keys `sub`, `email`, `name`, `exp`, `iat`, `iss`, with subject,
email and name taken from the input claim set, the fixed issuer string, and
`expires_in = ttl * 60` on a bearer token — but the expiry equals the
*first* `datetime.now` reading plus the ttl, while `iat` records a *second*
reading taken afterwards, so `exp = iat + ttl * 60` holds exactly when no
time elapses between the two readings. -/
theorem create_access_token_postconditions (cfg : AuthConfig)
    (tExp tIat : Int) (ud : Payload) :
    (create_access_token cfg tExp tIat ud).access_token.payloadOf.map
        Prod.fst = ["sub", "email", "name", "exp", "iat", "iss"]
      ∧ lookupClaim (create_access_token cfg tExp tIat ud).access_token.payloadOf
          "sub" = some (dictGet ud "sub")
      ∧ lookupClaim (create_access_token cfg tExp tIat ud).access_token.payloadOf
          "email" = some (dictGet ud "email")
      ∧ lookupClaim (create_access_token cfg tExp tIat ud).access_token.payloadOf
          "name" = some (dictGet ud "name")
      ∧ lookupClaim (create_access_token cfg tExp tIat ud).access_token.payloadOf
          "exp" = some (.num (tExp + cfg.jwt_expire_minutes * 60))
      ∧ lookupClaim (create_access_token cfg tExp tIat ud).access_token.payloadOf
          "iat" = some (.num tIat)
      ∧ lookupClaim (create_access_token cfg tExp tIat ud).access_token.payloadOf
          "iss" = some (.str "azure-devops-ai-backend")
      ∧ (create_access_token cfg tExp tIat ud).token_type = "bearer"
      ∧ (create_access_token cfg tExp tIat ud).expires_in
        = cfg.jwt_expire_minutes * 60
      ∧ (tExp = tIat →
          lookupClaim (create_access_token cfg tExp tIat ud).access_token.payloadOf
            "exp" = some (.num (tIat + cfg.jwt_expire_minutes * 60))) := by
  refine ⟨rfl, rfl, rfl, rfl, rfl, rfl, rfl, rfl, rfl, ?_⟩
  intro h
  rw [← h]
  rfl

def cfgC7 : AuthConfig := ⟨"c7-secret", "HS256", 60⟩

def udC7 : Payload :=
  [("sub", .str "u"), ("email", .str "e"), ("name", .str "n")]

/-- C7 counterexample: `create_access_token` reads the clock twice; when
one second elapses between the expiry computation (first reading, here 0)
and the issued-at reading (second reading, here 1), the issued payload has
`exp = 3600` and `iat = 1`, so the claimed `exp = iat + ttl_minutes * 60`
fails. -/
theorem issued_exp_ne_iat_plus_ttl_counterexample :
    lookupClaim (create_access_token cfgC7 0 1 udC7).access_token.payloadOf
        "exp" = some (.num 3600)
      ∧ lookupClaim (create_access_token cfgC7 0 1 udC7).access_token.payloadOf
          "iat" = some (.num 1)
      ∧ (3600 : Int) ≠ 1 + 60 * 60 :=
  ⟨rfl, rfl, by decide⟩

/-- C7 witness: the amended postconditions at a concrete input where the
two clock readings coincide, so `exp = iat + ttl * 60` does hold. -/
theorem create_access_token_postconditions_witness :
    lookupClaim (create_access_token cfgC7 5 5 udC7).access_token.payloadOf
        "exp" = some (.num (5 + 60 * 60))
      ∧ (create_access_token cfgC7 5 5 udC7).token_type = "bearer"
      ∧ (create_access_token cfgC7 5 5 udC7).expires_in = 60 * 60 := by
  have h := create_access_token_postconditions cfgC7 5 5 udC7
  exact ⟨h.2.2.2.2.2.2.2.2.2 rfl, h.2.2.2.2.2.2.2.1, h.2.2.2.2.2.2.2.2.1⟩

/-! ## String containment (for "message contains ..." statements) -/

/-- `leadsWith hay needle`: `needle` is an initial segment of `hay`. -/
def leadsWith : List Char → List Char → Bool
  | _, [] => true
  | [], _ :: _ => false
  | h :: t, n :: m => h == n && leadsWith t m

/-- `hasSubList hay needle`: `needle` occurs contiguously in `hay`. -/
def hasSubList : List Char → List Char → Bool
  | [], needle => needle.isEmpty
  | h :: t, needle => leadsWith (h :: t) needle || hasSubList t needle

/-- `strContains hay needle`: `needle` is a substring of `hay`. -/
def strContains (hay needle : String) : Bool :=
  hasSubList hay.data needle.data

/-! ## C6: the frontend authorization-code exchange -/

/-- The outcome of `msal.ConfidentialClientApplication.
acquire_token_by_authorization_code`: a dict that carries an
`access_token` on success and `error` / `error_description` on a
provider-reported rejection (MSAL reports OAuth2 error payloads as dict
entries, not exceptions).  Only the fields `exchange_code_for_token`
inspects are modelled. -/
structure MsalTokenResult where
  access_token : Option String
  error : Option String
  error_description : Option String
deriving DecidableEq, Repr

/-- `EntraIDAuthService.exchange_code_for_token`, given the MSAL result of
the code-for-token network call.  When the result has no `access_token`,
the code raises `AuthenticationError("Token exchange failed: " +
error_description-or-"Unknown error")` inside the `try` block; the final
catch-all `except Exception` clause catches that very exception and
re-raises it wrapped once more, hence the doubled prefix.  The token-cache
write on the success path does not affect the returned value and is
omitted. -/
def exchange_code_for_token (result : MsalTokenResult) :
    Except String MsalTokenResult :=
  match result.access_token with
  | some _ => .ok result
  | none =>
    let error_desc := result.error_description.getD "Unknown error"
    .error ("Token exchange failed: " ++ ("Token exchange failed: "
      ++ error_desc))

/-- C6 (amended): a provider-rejected exchange always surfaces as an
`AuthenticationError` (modelled as `Except.error` with the exception's
message) and never as a raw provider exception; the message contains the
provider-reported `error_description` whenever the error payload carries
one, but when the payload has only an `error` code and no
`error_description` the message falls back to "Unknown error" and does not
include the code. -/
theorem exchange_surfaces_provider_description (r : MsalTokenResult)
    (hat : r.access_token = none) :
    (∃ msg, exchange_code_for_token r = .error msg)
      ∧ (∀ d, r.error_description = some d →
          exchange_code_for_token r
            = .error ("Token exchange failed: " ++ ("Token exchange failed: "
                ++ d)))
      ∧ (r.error_description = none →
          exchange_code_for_token r
            = .error "Token exchange failed: Token exchange failed: Unknown error") := by
  refine ⟨?_, ?_, ?_⟩
  · exact ⟨"Token exchange failed: " ++ ("Token exchange failed: "
      ++ r.error_description.getD "Unknown error"),
      by simp [exchange_code_for_token, hat]⟩
  · intro d hd
    simp [exchange_code_for_token, hat, hd]
  · intro hd
    simp only [exchange_code_for_token, hat, hd, Option.getD_none]
    rfl

def rejectedInvalidGrant : MsalTokenResult :=
  { access_token := none, error := some "invalid_grant",
    error_description := none }

/-- C6 counterexample: a provider rejection whose payload carries
`error = "invalid_grant"` but no `error_description` produces the message
"Token exchange failed: Token exchange failed: Unknown error", which
contains neither the provider's error code nor any description — the
claimed guarantee fails on such payloads. -/
theorem exchange_error_without_description_counterexample :
    rejectedInvalidGrant.error = some "invalid_grant"
      ∧ exchange_code_for_token rejectedInvalidGrant
        = .error "Token exchange failed: Token exchange failed: Unknown error"
      ∧ strContains "Token exchange failed: Token exchange failed: Unknown error"
          "invalid_grant" = false :=
  ⟨rfl, rfl, by decide⟩

/-- C6 witness: the amended behavior at a concrete provider rejection that
does carry a description. -/
theorem exchange_surfaces_provider_description_witness :
    exchange_code_for_token
        { access_token := none, error := some "invalid_grant",
          error_description := some "AADSTS70008: invalid_grant" }
      = .error ("Token exchange failed: " ++ ("Token exchange failed: "
          ++ "AADSTS70008: invalid_grant")) :=
  (exchange_surfaces_provider_description
      { access_token := none, error := some "invalid_grant",
        error_description := some "AADSTS70008: invalid_grant" }
      rfl).2.1 "AADSTS70008: invalid_grant" rfl

/-! ## C8: startup configuration check -/

/-- The values a configuration source (environment variables merged with a
dotenv file) supplies for the three `Settings` fields that have no default:
`azure_tenant_id`, `azure_client_id`, `jwt_secret_key`. -/
structure EnvSource where
  azure_tenant_id : Option String
  azure_client_id : Option String
  jwt_secret_key : Option String
deriving DecidableEq, Repr

/-- The `Settings` model of `app/core/config.py`, restricted to the fields
the authentication claims depend on; `jwt_algorithm` and
`jwt_expire_minutes` carry their declared defaults. -/
structure Settings where
  azure_tenant_id : String
  azure_client_id : String
  jwt_secret_key : String
  jwt_algorithm : String
  jwt_expire_minutes : Int
deriving DecidableEq, Repr

/-- Pydantic construction `Settings()` from a source: succeeds exactly when
every field without a default is supplied; otherwise a `ValidationError`
(here `none`). -/
def settingsOfSource (env : EnvSource) : Option Settings :=
  match env.azure_tenant_id, env.azure_client_id, env.jwt_secret_key with
  | some t, some c, some j =>
    some { azure_tenant_id := t, azure_client_id := c, jwt_secret_key := j,
           jwt_algorithm := "HS256", jwt_expire_minutes := 60 }
  | _, _, _ => none

/-- The required fields the source fails to supply (abstracting the text of
pydantic's `ValidationError`, which lists exactly the missing fields). -/
def missingFields (env : EnvSource) : List String :=
  (if env.azure_tenant_id.isNone then ["azure_tenant_id"] else [])
    ++ (if env.azure_client_id.isNone then ["azure_client_id"] else [])
    ++ (if env.jwt_secret_key.isNone then ["jwt_secret_key"] else [])

/-- The original pydantic error interpolated into the `RuntimeError`
message. -/
def pydanticErrorMsg (env : EnvSource) : String :=
  "Field required: " ++ String.intercalate ", " (missingFields env)

/-- The fixed part of both `RuntimeError` messages, naming the required
environment variables. -/
def requiredVarsMsg : String :=
  "Required configuration missing. Please set the following environment variables: AZURE_TENANT_ID, AZURE_CLIENT_ID, JWT_SECRET_KEY. "

/-- The module-level `settings` construction of `app/core/config.py`:
try `Settings()` from the primary source; on a `ValidationError`, if a
`.env.test` file exists try `Settings(_env_file=".env.test")`; if that also
fails — or no `.env.test` exists — raise a `RuntimeError` naming the
required variables and the original error. -/
def initSettings (env : EnvSource) (envTestExists : Bool)
    (envTest : EnvSource) : Except String Settings :=
  match settingsOfSource env with
  | some s => .ok s
  | none =>
    if envTestExists then
      match settingsOfSource envTest with
      | some s => .ok s
      | none =>
        .error (requiredVarsMsg
          ++ ("For testing purposes, copy .env.example to .env or .env.test with appropriate values. Original error: "
            ++ pydanticErrorMsg env))
    else
      .error (requiredVarsMsg
        ++ ("For testing purposes, create a .env file with these values. Original error: "
          ++ pydanticErrorMsg env))

theorem settingsOfSource_eq_none (env : EnvSource)
    (h : env.azure_tenant_id = none ∨ env.azure_client_id = none
      ∨ env.jwt_secret_key = none) :
    settingsOfSource env = none := by
  rcases env with ⟨t, c, j⟩
  rcases t with _ | t <;> rcases c with _ | c <;> rcases j with _ | j <;>
    simp_all [settingsOfSource]

/-- C8 (amended): when a required identity-provider value (tenant id,
client id or signing secret) is absent from the primary configuration
source, startup raises a `RuntimeError` whose message names
`AZURE_TENANT_ID`, `AZURE_CLIENT_ID` and `JWT_SECRET_KEY` — unless a
`.env.test` file exists and itself supplies every required value, in which
case the module silently proceeds with the test-file settings instead of
halting. -/
theorem initSettings_halts_or_uses_test_env (env envTest : EnvSource)
    (b : Bool)
    (hmiss : env.azure_tenant_id = none ∨ env.azure_client_id = none
      ∨ env.jwt_secret_key = none) :
    (b = false →
        ∃ rest, initSettings env b envTest = .error (requiredVarsMsg ++ rest))
      ∧ (settingsOfSource envTest = none →
          ∃ rest, initSettings env b envTest = .error (requiredVarsMsg ++ rest))
      ∧ (∀ s, settingsOfSource envTest = some s → b = true →
          initSettings env b envTest = .ok s)
      ∧ strContains requiredVarsMsg "AZURE_TENANT_ID" = true
      ∧ strContains requiredVarsMsg "AZURE_CLIENT_ID" = true
      ∧ strContains requiredVarsMsg "JWT_SECRET_KEY" = true := by
  have h0 := settingsOfSource_eq_none env hmiss
  refine ⟨?_, ?_, ?_, by decide, by decide, by decide⟩
  · intro hb
    subst hb
    refine ⟨"For testing purposes, create a .env file with these values. Original error: "
      ++ pydanticErrorMsg env, ?_⟩
    simp [initSettings, h0]
  · intro ht
    cases b with
    | false =>
      refine ⟨"For testing purposes, create a .env file with these values. Original error: "
        ++ pydanticErrorMsg env, ?_⟩
      simp [initSettings, h0]
    | true =>
      refine ⟨"For testing purposes, copy .env.example to .env or .env.test with appropriate values. Original error: "
        ++ pydanticErrorMsg env, ?_⟩
      simp [initSettings, h0, ht]
  · intro s ht hb
    subst hb
    simp [initSettings, h0, ht]

def emptyEnv : EnvSource := ⟨none, none, none⟩

def fullTestEnv : EnvSource :=
  ⟨some "test-tenant", some "test-client", some "test-secret"⟩

/-- C8 counterexample: with every required value absent from the primary
source but a `.env.test` file present and complete, the module-level
construction returns settings instead of halting with a configuration
error — the claimed unconditional halt fails. -/
theorem initSettings_env_test_bypass_counterexample :
    emptyEnv.azure_tenant_id = none
      ∧ initSettings emptyEnv true fullTestEnv
        = .ok { azure_tenant_id := "test-tenant",
                azure_client_id := "test-client",
                jwt_secret_key := "test-secret",
                jwt_algorithm := "HS256", jwt_expire_minutes := 60 } :=
  ⟨rfl, rfl⟩

/-- C8 witness: the amended behavior at concrete inputs — no `.env.test`
file, missing tenant id, so startup halts with the message naming the
variables. -/
theorem initSettings_halts_or_uses_test_env_witness :
    (∃ rest,
        initSettings emptyEnv false fullTestEnv
          = .error (requiredVarsMsg ++ rest))
      ∧ strContains requiredVarsMsg "AZURE_TENANT_ID" = true :=
  ⟨(initSettings_halts_or_uses_test_env emptyEnv fullTestEnv false
      (Or.inl rfl)).1 rfl,
   (initSettings_halts_or_uses_test_env emptyEnv fullTestEnv false
      (Or.inl rfl)).2.2.2.1⟩

end AzureDevOpsAgent
